import Mathlib

/-!
Verification of `examples/undocumented/python/classifier_multiclassliblinear.py`
from the shogun repository.

The script is glue code over the external shogun machine-learning library
(the library itself is C++ code of the repository that is not part of the
excerpt).  We embed the script shallowly:

* number values are rationals (`ℚ`), feature matrices are lists of sample
  rows, label vectors are lists of rationals;
* the shogun library is an abstract interface `ShogunLib`: every operation
  may fail (`Except`), and the operations that receive a caller array by
  reference (`features`, `MulticlassLabels`) also return the contents of
  that array after the call, so that mutation by the library is expressible;
* the script itself is `classifier_multiclassliblinear`, a straight-line
  program over this interface that records the sequence of library calls it
  makes (`trace`), the lines it prints (`output`), the final contents of the
  caller arrays (`finals`) and its result (`result : Except`), exactly
  following the Python source;
* `specLib` is a concrete instance of the interface, modelled from the
  spec, used for the claims that depend on library behaviour.
-/

namespace Shogun

/-- A dense feature matrix: a list of sample rows of rationals. -/
abbrev Mat : Type := List (List ℚ)

/-- A label vector: one numeric class label per sample. -/
abbrev Vec : Type := List ℚ

/-- One library call made by the script, with the arguments it received. -/
inductive Event (Feat Lab Mach Pred Eval : Type) : Type where
  | features (m : Mat)
  | multiclassLabels (v : Vec)
  | machine (name : String) (C : ℚ) (labels : Lab)
  | train (c : Mach) (f : Feat)
  | apply (c : Mach) (f : Feat)
  | getLabels (p : Pred)
  | multiclassAccuracy
  | evaluate (ev : Eval) (p : Pred) (l : Lab)

/-- The external shogun library, as the script uses it.  Each operation may
raise (`Except.error`).  `features` and `multiclassLabels` receive a caller
array by reference; the second component of their result is the contents of
that array after the call (so a mutating library is representable). -/
structure ShogunLib (E Feat Lab Mach Pred Eval : Type) : Type where
  features : Mat → Except E (Feat × Mat)
  multiclassLabels : Vec → Except E (Lab × Vec)
  machine : String → ℚ → Lab → Except E Mach
  train : Mach → Feat → Except E Mach
  apply : Mach → Feat → Except E Pred
  getLabels : Pred → Except E Vec
  multiclassAccuracy : Except E Eval
  evaluate : Eval → Pred → Lab → Except E ℚ

/-- Contents of the four caller-owned arrays at some point of a run. -/
structure ArrState : Type where
  fm_train : Mat
  fm_test : Mat
  label_train : Vec
  label_test : Option Vec
deriving DecidableEq

/-- Everything observable about one invocation of the script: the returned
value or propagated exception, the sequence of library calls, the lines
printed to standard output, and the final contents of the caller arrays. -/
structure RunResult (E Feat Lab Mach Pred Eval : Type) : Type where
  result : Except E Vec
  trace : List (Event Feat Lab Mach Pred Eval)
  output : List String
  finals : ArrState

/-- The four decimal digits of `k < 10000`, zero-padded to the left. -/
def digitChar4 (k : ℕ) : List Char :=
  [Nat.digitChar (k / 1000 % 10), Nat.digitChar (k / 100 % 10),
   Nat.digitChar (k / 10 % 10), Nat.digitChar (k % 10)]

/-- Modelled from the spec: Python's `'%.4f'` float formatting (the Python
runtime is not part of the excerpt).  The rational is rounded to four
decimal places and rendered with exactly four digits after the point. -/
def fmt4 (q : ℚ) : String :=
  let n : ℤ := round (q * 10000)
  let sgn := if n < 0 then "-" else ""
  let m := n.natAbs
  sgn ++ toString (m / 10000) ++ "." ++ String.mk (digitChar4 (m % 10000))

/-- The line printed by `print('Accuracy = %.4f' % acc)`. -/
def accuracyLine (acc : ℚ) : String :=
  "Accuracy = " ++ fmt4 acc

section Script

variable {E Feat Lab Mach Pred Eval : Type}

/-- Run one library call: record its event; on failure stop the script with
that error, the caller arrays as they stood; on success continue. -/
def step {α : Type} (ev : Event Feat Lab Mach Pred Eval) (x : Except E α)
    (st : ArrState) (k : α → RunResult E Feat Lab Mach Pred Eval) :
    RunResult E Feat Lab Mach Pred Eval :=
  match x with
  | .error e => ⟨.error e, [ev], [], st⟩
  | .ok a =>
    let r := k a
    ⟨r.result, ev :: r.trace, r.output, r.finals⟩

/-- Shallow embedding of the Python function
`classifier_multiclassliblinear`: wrap the two feature matrices, wrap the
training labels, build the `"MulticlassLibLinear"` machine with `C` and the
labels, train it on the training features, apply it to the test features,
extract the predicted label vector; if test labels were given, additionally
wrap them, build a `MulticlassAccuracy` evaluator, evaluate, and print the
accuracy line; finally return the predicted labels.  `width` and `epsilon`
are accepted, as in the source, and appear nowhere in the body. -/
def classifier_multiclassliblinear (L : ShogunLib E Feat Lab Mach Pred Eval)
    (fm_train_real fm_test_real : Mat) (label_train_multiclass : Vec)
    (label_test_multiclass : Option Vec) (width C epsilon : ℚ) :
    RunResult E Feat Lab Mach Pred Eval :=
  let st0 : ArrState :=
    ⟨fm_train_real, fm_test_real, label_train_multiclass, label_test_multiclass⟩
  step (.features fm_train_real) (L.features fm_train_real) st0 fun ft =>
  let st1 : ArrState := ⟨ft.2, st0.fm_test, st0.label_train, st0.label_test⟩
  step (.features fm_test_real) (L.features fm_test_real) st1 fun fe =>
  let st2 : ArrState := ⟨st1.fm_train, fe.2, st1.label_train, st1.label_test⟩
  step (.multiclassLabels label_train_multiclass)
      (L.multiclassLabels label_train_multiclass) st2 fun lb =>
  let st3 : ArrState := ⟨st2.fm_train, st2.fm_test, lb.2, st2.label_test⟩
  step (.machine "MulticlassLibLinear" C lb.1)
      (L.machine "MulticlassLibLinear" C lb.1) st3 fun classifier =>
  step (.train classifier ft.1) (L.train classifier ft.1) st3 fun classifier1 =>
  step (.apply classifier1 fe.1) (L.apply classifier1 fe.1) st3 fun label_pred =>
  step (.getLabels label_pred) (L.getLabels label_pred) st3 fun out =>
  match label_test_multiclass with
  | none => ⟨.ok out, [], [], st3⟩
  | some lt =>
    step (.multiclassLabels lt) (L.multiclassLabels lt) st3 fun lbt =>
    let st4 : ArrState := ⟨st3.fm_train, st3.fm_test, st3.label_train, some lbt.2⟩
    step .multiclassAccuracy L.multiclassAccuracy st4 fun evaluator =>
    step (.evaluate evaluator label_pred lbt.1)
        (L.evaluate evaluator label_pred lbt.1) st4 fun acc =>
    ⟨.ok out, [], [accuracyLine acc], st4⟩

end Script

/-- Squared Euclidean distance between two sample rows. -/
def sqDist (x y : List ℚ) : ℚ :=
  ((x.zip y).map fun p => (p.1 - p.2) ^ 2).sum

/-- Label of the training sample nearest to `x` (0 for empty training data).
The actual LibLinear optimisation is an explicit non-goal of the spec; any
deterministic per-sample predictor is faithful at the spec's level. -/
def predictOne (tr : Mat) (lbl : Vec) (x : List ℚ) : ℚ :=
  match tr.zip lbl with
  | [] => 0
  | p :: ps =>
    (ps.foldl (fun best c => if sqDist c.1 x < sqDist best.1 x then c else best) p).2

/-- Number of positions where predicted and ground-truth labels agree. -/
def countMatches (p l : Vec) : ℕ :=
  ((p.zip l).filter fun q => decide (q.1 = q.2)).length

/-- State of a `"MulticlassLibLinear"` machine: its regularization constant,
the labels supplied at construction, and the training data once trained. -/
structure SpecMachine : Type where
  C : ℚ
  labels : Vec
  data : Option Mat
deriving DecidableEq

/-- Modelled from the spec: the external shogun library (C++ code of the
repository, not in the excerpt).  Feature and label wrapping hold the array
contents and do not mutate the caller's array; the machine factory knows the
name `"MulticlassLibLinear"`; `train` stores the training data; `apply`
produces one predicted label per test sample; `evaluate` returns the
fraction of test samples whose predicted label matches the ground truth. -/
def specLib : ShogunLib String Mat Vec SpecMachine Vec Unit :=
  ⟨fun m => .ok (m, m),
   fun v => .ok (v, v),
   fun name c lab =>
     if name = "MulticlassLibLinear" then .ok ⟨c, lab, none⟩
     else .error ("no machine " ++ name),
   fun mach f => .ok ⟨mach.C, mach.labels, some f⟩,
   fun mach f =>
     match mach.data with
     | none => .error "machine is not trained"
     | some tr => .ok (f.map (predictOne tr mach.labels)),
   fun p => .ok p,
   .ok (),
   fun _ p l => .ok ((countMatches p l : ℚ) / (l.length : ℚ))⟩

/-- One entry of `parameter_list`: the four data arrays and the three
numeric hyperparameters, in the order the script passes them. -/
structure Params : Type where
  fm_train : Mat
  fm_test : Mat
  label_train : Vec
  label_test : Option Vec
  width : ℚ
  C : ℚ
  epsilon : ℚ
deriving DecidableEq, Inhabited

/-- Shallow embedding of the module-level `parameter_list`, parametric in
the four arrays returned by the external `prepare_data(False)` (whose
implementation is outside the excerpt; it returns four concrete arrays, so
the stored test labels are `some label_testdat`). -/
def parameter_list (traindat testdat : Mat)
    (label_traindat label_testdat : Vec) : List Params :=
  [⟨traindat, testdat, label_traindat, some label_testdat, 2.1, 1, 1e-5⟩,
   ⟨traindat, testdat, label_traindat, some label_testdat, 2.2, 1, 1e-5⟩]

/-- Invoke the example routine on one entry of `parameter_list`, splatting
its fields positionally as `classifier_multiclassliblinear(*params)` does. -/
def runParams {E Feat Lab Mach Pred Eval : Type}
    (L : ShogunLib E Feat Lab Mach Pred Eval) (p : Params) :
    RunResult E Feat Lab Mach Pred Eval :=
  classifier_multiclassliblinear L p.fm_train p.fm_test p.label_train
    p.label_test p.width p.C p.epsilon

/-- Shallow embedding of the `__main__` block: print the diagnostic line
`'MulticlassLibLinear'`, then run the routine once on `parameter_list[0]`;
the value is everything the script writes to standard output. -/
def mainOutput {E Feat Lab Mach Pred Eval : Type}
    (L : ShogunLib E Feat Lab Mach Pred Eval) (traindat testdat : Mat)
    (label_traindat label_testdat : Vec) : List String :=
  "MulticlassLibLinear" ::
    (runParams L
      ((parameter_list traindat testdat label_traindat label_testdat).getD 0
        default)).output

/-- The label vector `specLib` predicts for test matrix `te` after training
on `tr` with labels `l`: one label per test sample. -/
def specPred (tr : Mat) (l : Vec) (te : Mat) : Vec :=
  te.map (predictOne tr l)

/-- The accuracy `specLib` reports: matching positions over test count. -/
def specAcc (pred lt : Vec) : ℚ :=
  (countMatches pred lt : ℚ) / (lt.length : ℚ)

/-- Complete description of a run of the script against `specLib` when no
test labels are given. -/
theorem specLib_run_none (tr te : Mat) (l : Vec) (w C eps : ℚ) :
    classifier_multiclassliblinear specLib tr te l none w C eps =
      ⟨.ok (specPred tr l te),
       [.features tr, .features te, .multiclassLabels l,
        .machine "MulticlassLibLinear" C l, .train ⟨C, l, none⟩ tr,
        .apply ⟨C, l, some tr⟩ te, .getLabels (specPred tr l te)],
       [], ⟨tr, te, l, none⟩⟩ := rfl

/-- Complete description of a run of the script against `specLib` when test
labels are given. -/
theorem specLib_run_some (tr te : Mat) (l lt : Vec) (w C eps : ℚ) :
    classifier_multiclassliblinear specLib tr te l (some lt) w C eps =
      ⟨.ok (specPred tr l te),
       [.features tr, .features te, .multiclassLabels l,
        .machine "MulticlassLibLinear" C l, .train ⟨C, l, none⟩ tr,
        .apply ⟨C, l, some tr⟩ te, .getLabels (specPred tr l te),
        .multiclassLabels lt, .multiclassAccuracy,
        .evaluate () (specPred tr l te) lt],
       [accuracyLine (specAcc (specPred tr l te) lt)],
       ⟨tr, te, l, some lt⟩⟩ := rfl

/-- The number of matching positions is at most the test label count. -/
theorem countMatches_le_length (p l : Vec) : countMatches p l ≤ l.length := by
  calc ((p.zip l).filter fun q => decide (q.1 = q.2)).length
      ≤ (p.zip l).length := List.length_filter_le _ _
    _ ≤ l.length := by
        rw [List.length_zip]
        exact min_le_right _ _

/-- The reported accuracy is a fraction of matches, hence lies in `[0, 1]`
(also for empty test labels, where the quotient is `0`). -/
theorem specAcc_mem_unit_interval (pred lt : Vec) :
    0 ≤ specAcc pred lt ∧ specAcc pred lt ≤ 1 := by
  constructor
  · exact div_nonneg (Nat.cast_nonneg _) (Nat.cast_nonneg _)
  · exact div_le_one_of_le₀ (by exact_mod_cast countMatches_le_length pred lt)
      (Nat.cast_nonneg _)

/-- C1: for every invocation (with or without test labels), the returned
value is the predicted label vector for the test set — one predicted label
per test sample — so its length equals the number of test samples. -/
theorem returned_vector_is_prediction_of_test_length (tr te : Mat) (l : Vec)
    (lte : Option Vec) (w C eps : ℚ) :
    (classifier_multiclassliblinear specLib tr te l lte w C eps).result =
        .ok (specPred tr l te) ∧
      (specPred tr l te).length = te.length := by
  constructor
  · cases lte
    · rw [specLib_run_none]
    · rw [specLib_run_some]
  · exact List.length_map te (predictOne tr l)

/-- C2: with test labels present the script writes exactly the one line
`accuracyLine acc` (the `'Accuracy = %.4f'` format) to standard output;
with test labels absent it writes nothing and still returns successfully
(no exception). -/
theorem accuracy_line_iff_test_labels_present (tr te : Mat) (l lt : Vec)
    (w C eps : ℚ) :
    (classifier_multiclassliblinear specLib tr te l (some lt) w C eps).output =
        [accuracyLine (specAcc (specPred tr l te) lt)] ∧
      (classifier_multiclassliblinear specLib tr te l none w C eps).output =
        [] ∧
      (classifier_multiclassliblinear specLib tr te l none w C eps).result =
        .ok (specPred tr l te) := by
  refine ⟨?_, ?_, ?_⟩
  · rw [specLib_run_some]
  · rw [specLib_run_none]
  · rw [specLib_run_none]

/-- C3: `width` and `epsilon` are accepted but inert — two invocations that
agree on everything else produce identical results, traces, printed output
and final array contents, for every library implementation. -/
theorem width_epsilon_inert {E Feat Lab Mach Pred Eval : Type}
    (L : ShogunLib E Feat Lab Mach Pred Eval) (tr te : Mat) (l : Vec)
    (lte : Option Vec) (w1 w2 C eps1 eps2 : ℚ) :
    classifier_multiclassliblinear L tr te l lte w1 C eps1 =
      classifier_multiclassliblinear L tr te l lte w2 C eps2 := rfl

/-- C8: running the script directly executes the routine once on
`parameter_list[0]` and prints exactly the diagnostic line
`'MulticlassLibLinear'` followed by the accuracy line. -/
theorem main_prints_diagnostic_then_accuracy (tr te : Mat) (l lt : Vec) :
    mainOutput specLib tr te l lt =
      ["MulticlassLibLinear",
       accuracyLine (specAcc (specPred tr l te) lt)] := by
  show "MulticlassLibLinear" ::
      (runParams specLib
        ((parameter_list tr te l lt).getD 0 default)).output = _
  rw [runParams, parameter_list]
  show "MulticlassLibLinear" ::
      (classifier_multiclassliblinear specLib tr te l (some lt)
        2.1 1 1e-5).output = _
  rw [specLib_run_some]

/-- C9: whenever test labels are supplied, the run prints an accuracy line
for a single scalar accuracy value lying in the interval `[0, 1]`. -/
theorem printed_accuracy_in_unit_interval (tr te : Mat) (l lt : Vec)
    (w C eps : ℚ) :
    ∃ a : ℚ, 0 ≤ a ∧ a ≤ 1 ∧
      (classifier_multiclassliblinear specLib tr te l (some lt) w C
          eps).output = [accuracyLine a] := by
  refine ⟨specAcc (specPred tr l te) lt,
    (specAcc_mem_unit_interval _ _).1, (specAcc_mem_unit_interval _ _).2, ?_⟩
  rw [specLib_run_some]

/-- C4 counterexample: in the source, positional argument 5 of
`parameter_list` binds the `width` parameter and argument 6 binds `C`, so
the two example parameter sets do not vary the regularization constant `C`
between them: at any concrete data (here the empty arrays) both entries
carry `C = 1`, refuting "vary the regularization constant C between
them". -/
theorem parameter_sets_share_C :
    ((parameter_list [] [] [] []).getD 0 default).C =
        ((parameter_list [] [] [] []).getD 1 default).C ∧
      ((parameter_list [] [] [] []).getD 0 default).C = 1 := ⟨rfl, rfl⟩

/-- C4 (amended): the two example parameter sets `(2.1, 1, 1e-5)` and
`(2.2, 1, 1e-5)` in `parameter_list` vary the `width` hyperparameter
between them while `C` is `1` in both, and invoking
`classifier_multiclassliblinear` with either set executes without error and
returns a label vector whose length equals the test sample count. -/
theorem parameter_sets_vary_width_and_run_ok (tr te : Mat) (l lt : Vec) :
    ((parameter_list tr te l lt).getD 0 default).width = 2.1 ∧
      ((parameter_list tr te l lt).getD 1 default).width = 2.2 ∧
      ((parameter_list tr te l lt).getD 0 default).width ≠
        ((parameter_list tr te l lt).getD 1 default).width ∧
      ((parameter_list tr te l lt).getD 0 default).C = 1 ∧
      ((parameter_list tr te l lt).getD 1 default).C = 1 ∧
      (runParams specLib ((parameter_list tr te l lt).getD 0 default)).result =
        .ok (specPred tr l te) ∧
      (runParams specLib ((parameter_list tr te l lt).getD 1 default)).result =
        .ok (specPred tr l te) ∧
      (specPred tr l te).length = te.length := by
  refine ⟨rfl, rfl, by norm_num [parameter_list], rfl, rfl, ?_, ?_,
    List.length_map te (predictOne tr l)⟩
  · show (classifier_multiclassliblinear specLib tr te l (some lt)
        2.1 1 1e-5).result = _
    rw [specLib_run_some]
  · show (classifier_multiclassliblinear specLib tr te l (some lt)
        2.2 1 1e-5).result = _
    rw [specLib_run_some]

/-- A successful run determines a chain of successful library calls, and
the returned vector is exactly what `getLabels` yielded on the prediction —
independently of the branch taken on the test labels. -/
theorem result_ok_chain {E Feat Lab Mach Pred Eval : Type}
    (L : ShogunLib E Feat Lab Mach Pred Eval) (tr te : Mat) (l : Vec)
    (lte : Option Vec) (w C eps : ℚ) (o : Vec)
    (h : (classifier_multiclassliblinear L tr te l lte w C eps).result =
      .ok o) :
    ∃ ft fe lb mc mc1 pr, L.features tr = .ok ft ∧ L.features te = .ok fe ∧
      L.multiclassLabels l = .ok lb ∧
      L.machine "MulticlassLibLinear" C lb.1 = .ok mc ∧
      L.train mc ft.1 = .ok mc1 ∧ L.apply mc1 fe.1 = .ok pr ∧
      L.getLabels pr = .ok o := by
  unfold classifier_multiclassliblinear at h
  rcases h1 : L.features tr with e | ft
  · rw [h1] at h; simp [step] at h
  rw [h1] at h; simp only [step] at h
  rcases h2 : L.features te with e | fe
  · rw [h2] at h; simp [step] at h
  rw [h2] at h; simp only [step] at h
  rcases h3 : L.multiclassLabels l with e | lb
  · rw [h3] at h; simp [step] at h
  rw [h3] at h; simp only [step] at h
  rcases h4 : L.machine "MulticlassLibLinear" C lb.1 with e | mc
  · rw [h4] at h; simp [step] at h
  rw [h4] at h; simp only [step] at h
  rcases h5 : L.train mc ft.1 with e | mc1
  · rw [h5] at h; simp [step] at h
  rw [h5] at h; simp only [step] at h
  rcases h6 : L.apply mc1 fe.1 with e | pr
  · rw [h6] at h; simp [step] at h
  rw [h6] at h; simp only [step] at h
  rcases h7 : L.getLabels pr with e | out
  · rw [h7] at h; simp [step] at h
  rw [h7] at h; simp only [step] at h
  refine ⟨ft, fe, lb, mc, mc1, pr, rfl, rfl, rfl, h4, h5, h6, ?_⟩
  cases lte with
  | none =>
    simp at h
    rw [h7, h]
  | some lt =>
    simp only [] at h
    rcases h8 : L.multiclassLabels lt with e | lbt
    · rw [h8] at h; simp [step] at h
    rw [h8] at h; simp only [step] at h
    rcases h9 : L.multiclassAccuracy with e | ev
    · rw [h9] at h; simp [step] at h
    rw [h9] at h; simp only [step] at h
    rcases h10 : L.evaluate ev pr lbt.1 with e | acc
    · rw [h10] at h; simp [step] at h
    rw [h10] at h; simp only [step] at h
    simp at h
    rw [h7, h]

/-- C10: the returned predicted label vector does not depend on the test
label argument — two invocations agreeing on everything but the test labels
(either possibly absent) that both return normally return the same
vector. -/
theorem result_independent_of_test_labels
    {E Feat Lab Mach Pred Eval : Type}
    (L : ShogunLib E Feat Lab Mach Pred Eval) (tr te : Mat) (l : Vec)
    (lt1 lt2 : Option Vec) (w C eps : ℚ) (o1 o2 : Vec)
    (h1 : (classifier_multiclassliblinear L tr te l lt1 w C eps).result =
      .ok o1)
    (h2 : (classifier_multiclassliblinear L tr te l lt2 w C eps).result =
      .ok o2) :
    o1 = o2 := by
  obtain ⟨ft, fe, lb, mc, mc1, pr, a1, a2, a3, a4, a5, a6, a7⟩ :=
    result_ok_chain L tr te l lt1 w C eps o1 h1
  obtain ⟨ft', fe', lb', mc', mc1', pr', b1, b2, b3, b4, b5, b6, b7⟩ :=
    result_ok_chain L tr te l lt2 w C eps o2 h2
  rw [a1] at b1; cases b1
  rw [a2] at b2; cases b2
  rw [a3] at b3; cases b3
  rw [a4] at b4; cases b4
  rw [a5] at b5; cases b5
  rw [a6] at b6; cases b6
  rw [a7] at b7
  cases b7
  rfl

/-- C5: in every invocation whose library calls succeed, the calls happen
in order — the two feature wraps and the label wrap, then construction of
the machine named `"MulticlassLibLinear"` from `C` and the wrapped training
labels, then training on the wrapped training features, and only then
prediction on the wrapped test features followed by label extraction (the
optional accuracy calls come after, in `rest`). -/
theorem library_call_order {E Feat Lab Mach Pred Eval : Type}
    (L : ShogunLib E Feat Lab Mach Pred Eval) (tr te : Mat) (l : Vec)
    (lte : Option Vec) (w C eps : ℚ) (ft fe : Feat × Mat) (lb : Lab × Vec)
    (mc mc1 : Mach) (pr : Pred) (out : Vec)
    (h1 : L.features tr = .ok ft) (h2 : L.features te = .ok fe)
    (h3 : L.multiclassLabels l = .ok lb)
    (h4 : L.machine "MulticlassLibLinear" C lb.1 = .ok mc)
    (h5 : L.train mc ft.1 = .ok mc1) (h6 : L.apply mc1 fe.1 = .ok pr)
    (h7 : L.getLabels pr = .ok out) :
    ∃ rest, (classifier_multiclassliblinear L tr te l lte w C eps).trace =
      [.features tr, .features te, .multiclassLabels l,
       .machine "MulticlassLibLinear" C lb.1, .train mc ft.1,
       .apply mc1 fe.1, .getLabels pr] ++ rest := by
  unfold classifier_multiclassliblinear
  rw [h1]; simp only [step]
  rw [h2]; simp only [step]
  rw [h3]; simp only [step]
  rw [h4]; simp only [step]
  rw [h5]; simp only [step]
  rw [h6]; simp only [step]
  rw [h7]; simp only [step]
  cases lte with
  | none => exact ⟨[], by simp⟩
  | some lt =>
    simp only []
    rcases h8 : L.multiclassLabels lt with e | lbt
    · exact ⟨[.multiclassLabels lt], by simp [step]⟩
    rcases h9 : L.multiclassAccuracy with e | ev
    · exact ⟨[.multiclassLabels lt, .multiclassAccuracy], by simp [step]⟩
    rcases h10 : L.evaluate ev pr lbt.1 with e | acc
    · exact ⟨[.multiclassLabels lt, .multiclassAccuracy,
        .evaluate ev pr lbt.1], by simp [step, h10]⟩
    exact ⟨[.multiclassLabels lt, .multiclassAccuracy,
      .evaluate ev pr lbt.1], by simp [step, h10]⟩

/-- C6: the script validates nothing and handles no errors — any error an
invocation returns is exactly an error raised by one of the library calls
(feature wrapping, label wrapping, machine construction, train, apply,
label extraction, evaluator construction, evaluation), propagated to the
caller unmodified; the script raises nothing of its own. -/
theorem errors_propagate_unmodified {E Feat Lab Mach Pred Eval : Type}
    (L : ShogunLib E Feat Lab Mach Pred Eval) (tr te : Mat) (l : Vec)
    (lte : Option Vec) (w C eps : ℚ) (e : E)
    (h : (classifier_multiclassliblinear L tr te l lte w C eps).result =
      .error e) :
    L.features tr = .error e ∨ L.features te = .error e ∨
      (∃ v, L.multiclassLabels v = .error e) ∨
      (∃ lb, L.machine "MulticlassLibLinear" C lb = .error e) ∨
      (∃ mc f, L.train mc f = .error e) ∨
      (∃ mc f, L.apply mc f = .error e) ∨
      (∃ p, L.getLabels p = .error e) ∨
      L.multiclassAccuracy = .error e ∨
      (∃ ev p lb, L.evaluate ev p lb = .error e) := by
  unfold classifier_multiclassliblinear at h
  rcases h1 : L.features tr with e1 | ft
  · rw [h1] at h; simp [step] at h; subst h; exact Or.inl rfl
  rw [h1] at h; simp only [step] at h
  rcases h2 : L.features te with e2 | fe
  · rw [h2] at h; simp [step] at h; subst h; exact Or.inr (Or.inl rfl)
  rw [h2] at h; simp only [step] at h
  rcases h3 : L.multiclassLabels l with e3 | lb
  · rw [h3] at h; simp [step] at h; subst h
    exact Or.inr (Or.inr (Or.inl ⟨l, h3⟩))
  rw [h3] at h; simp only [step] at h
  rcases h4 : L.machine "MulticlassLibLinear" C lb.1 with e4 | mc
  · rw [h4] at h; simp [step] at h; subst h
    exact Or.inr (Or.inr (Or.inr (Or.inl ⟨lb.1, h4⟩)))
  rw [h4] at h; simp only [step] at h
  rcases h5 : L.train mc ft.1 with e5 | mc1
  · rw [h5] at h; simp [step] at h; subst h
    exact Or.inr (Or.inr (Or.inr (Or.inr (Or.inl ⟨mc, ft.1, h5⟩))))
  rw [h5] at h; simp only [step] at h
  rcases h6 : L.apply mc1 fe.1 with e6 | pr
  · rw [h6] at h; simp [step] at h; subst h
    exact Or.inr (Or.inr (Or.inr (Or.inr (Or.inr
      (Or.inl ⟨mc1, fe.1, h6⟩)))))
  rw [h6] at h; simp only [step] at h
  rcases h7 : L.getLabels pr with e7 | out
  · rw [h7] at h; simp [step] at h; subst h
    exact Or.inr (Or.inr (Or.inr (Or.inr (Or.inr (Or.inr
      (Or.inl ⟨pr, h7⟩))))))
  rw [h7] at h; simp only [step] at h
  cases lte with
  | none => simp at h
  | some lt =>
    simp only [] at h
    rcases h8 : L.multiclassLabels lt with e8 | lbt
    · rw [h8] at h; simp [step] at h; subst h
      exact Or.inr (Or.inr (Or.inl ⟨lt, h8⟩))
    rw [h8] at h; simp only [step] at h
    rcases h9 : L.multiclassAccuracy with e9 | ev
    · rw [h9] at h; simp [step] at h; subst h
      exact Or.inr (Or.inr (Or.inr (Or.inr (Or.inr (Or.inr (Or.inr
        (Or.inl rfl)))))))
    rw [h9] at h; simp only [step] at h
    rcases h10 : L.evaluate ev pr lbt.1 with e10 | acc
    · rw [h10] at h; simp [step] at h; subst h
      exact Or.inr (Or.inr (Or.inr (Or.inr (Or.inr (Or.inr (Or.inr
        (Or.inr ⟨ev, pr, lbt.1, h10⟩)))))))
    rw [h10] at h; simp only [step] at h
    simp at h

/-- C7: the caller-supplied arrays are not mutated.  Under the library
contract — modelled from the spec: the wrapping calls, the only library
calls that receive the caller's arrays by reference, leave their contents
unchanged — every invocation (also one that propagates an error) finishes
with all four caller arrays holding exactly their initial contents. -/
theorem caller_arrays_not_mutated {E Feat Lab Mach Pred Eval : Type}
    (L : ShogunLib E Feat Lab Mach Pred Eval)
    (hf : ∀ m r, L.features m = .ok r → r.2 = m)
    (hl : ∀ v r, L.multiclassLabels v = .ok r → r.2 = v)
    (tr te : Mat) (l : Vec) (lte : Option Vec) (w C eps : ℚ) :
    (classifier_multiclassliblinear L tr te l lte w C eps).finals =
      ⟨tr, te, l, lte⟩ := by
  unfold classifier_multiclassliblinear
  rcases h1 : L.features tr with e1 | ft
  · simp [step, h1]
  simp only [step, h1]
  rcases h2 : L.features te with e2 | fe
  · simp [step, h2, hf tr ft h1]
  simp only [step, h2]
  rcases h3 : L.multiclassLabels l with e3 | lb
  · simp [step, h3, hf tr ft h1, hf te fe h2]
  simp only [step, h3]
  rcases h4 : L.machine "MulticlassLibLinear" C lb.1 with e4 | mc
  · simp [step, h4, hf tr ft h1, hf te fe h2, hl l lb h3]
  simp only [step, h4]
  rcases h5 : L.train mc ft.1 with e5 | mc1
  · simp [step, h5, hf tr ft h1, hf te fe h2, hl l lb h3]
  simp only [step, h5]
  rcases h6 : L.apply mc1 fe.1 with e6 | pr
  · simp [step, h6, hf tr ft h1, hf te fe h2, hl l lb h3]
  simp only [step, h6]
  rcases h7 : L.getLabels pr with e7 | out
  · simp [step, h7, hf tr ft h1, hf te fe h2, hl l lb h3]
  simp only [step, h7]
  cases lte with
  | none => simp [hf tr ft h1, hf te fe h2, hl l lb h3]
  | some lt =>
    simp only []
    rcases h8 : L.multiclassLabels lt with e8 | lbt
    · simp [step, h8, hf tr ft h1, hf te fe h2, hl l lb h3]
    simp only [step, h8]
    rcases h9 : L.multiclassAccuracy with e9 | ev
    · simp [step, h9, hf tr ft h1, hf te fe h2, hl l lb h3, hl lt lbt h8]
    simp only [step, h9]
    rcases h10 : L.evaluate ev pr lbt.1 with e10 | acc
    · simp [step, h10, hf tr ft h1, hf te fe h2, hl l lb h3, hl lt lbt h8]
    simp [step, h10, hf tr ft h1, hf te fe h2, hl l lb h3, hl lt lbt h8]

/-- A library whose feature wrapping raises, for exercising propagation. -/
def failLib : ShogunLib String Mat Vec SpecMachine Vec Unit :=
  ⟨fun _ => .error "features failed", specLib.multiclassLabels,
   specLib.machine, specLib.train, specLib.apply, specLib.getLabels,
   specLib.multiclassAccuracy, specLib.evaluate⟩

/-- Instantiation of `library_call_order` at `specLib` on concrete data. -/
theorem library_call_order_witness :
    ∃ rest,
      (classifier_multiclassliblinear specLib [[1]] [] [3] none 1 2 1).trace =
        [.features [[1]], .features [], .multiclassLabels [3],
         .machine "MulticlassLibLinear" 2 [3], .train ⟨2, [3], none⟩ [[1]],
         .apply ⟨2, [3], some [[1]]⟩ [], .getLabels []] ++ rest :=
  library_call_order specLib [[1]] [] [3] none 1 2 1
    ([[1]], [[1]]) ([], []) ([3], [3]) ⟨2, [3], none⟩ ⟨2, [3], some [[1]]⟩
    [] [] rfl rfl rfl rfl rfl rfl rfl

/-- Instantiation of `errors_propagate_unmodified` at `failLib`, whose
feature wrapping raises, on concrete data. -/
theorem errors_propagate_unmodified_witness :
    failLib.features [[1]] = .error "features failed" ∨
      failLib.features [] = .error "features failed" ∨
      (∃ v, failLib.multiclassLabels v = .error "features failed") ∨
      (∃ lb, failLib.machine "MulticlassLibLinear" 2 lb =
        .error "features failed") ∨
      (∃ mc f, failLib.train mc f = .error "features failed") ∨
      (∃ mc f, failLib.apply mc f = .error "features failed") ∨
      (∃ p, failLib.getLabels p = .error "features failed") ∨
      failLib.multiclassAccuracy = .error "features failed" ∨
      (∃ ev p lb, failLib.evaluate ev p lb = .error "features failed") :=
  errors_propagate_unmodified failLib [[1]] [] [3] none 1 2 1
    "features failed" rfl

/-- Instantiation of `caller_arrays_not_mutated` at `specLib` (which
satisfies the non-mutation contract) on concrete data. -/
theorem caller_arrays_not_mutated_witness :
    (classifier_multiclassliblinear specLib [[1]] [[2]] [3] (some [4])
        1 2 1).finals = ⟨[[1]], [[2]], [3], some [4]⟩ :=
  caller_arrays_not_mutated specLib
    (fun m r h => by cases h; rfl) (fun v r h => by cases h; rfl)
    [[1]] [[2]] [3] (some [4]) 1 2 1

/-- Instantiation of `result_independent_of_test_labels` at `specLib` on
concrete data, one run without and one with test labels. -/
theorem result_independent_of_test_labels_witness :
    (classifier_multiclassliblinear specLib [[1]] [] [3] none
        1 2 1).result = .ok [] ∧
      (classifier_multiclassliblinear specLib [[1]] [] [3] (some [5])
        1 2 1).result = .ok [] ∧ ([] : Vec) = [] :=
  ⟨rfl, rfl,
    result_independent_of_test_labels specLib [[1]] [] [3] none (some [5])
      1 2 1 [] [] rfl rfl⟩

end Shogun
